import Mathlib

/-!
Shallow embedding of the `ebuttd` subtitle parser (files `ebuttd/model.py` and
`ebuttd/parse.py`).  Python floats are modelled as exact rationals (`ℚ`),
Python strings as `String` / `List Char`, Python exceptions as an explicit
error type threaded through `Except`.  `ValueError` raised by value parsers and
`ParseError` raised by structural code are kept distinct, since which of the
two escapes is itself a specified behaviour.
-/

deriving instance DecidableEq for Except

namespace Ebuttd

/-- The two exception kinds observable from the parser: the module's own
`ParseError` and Python's builtin `ValueError` (raised by value parsers and
builtins such as `float` and `int`; its payload is modelled loosely as the
offending string, the exception class is what matters). -/
inductive PError where
  | parseError (msg : String)
  | valueError (raw : String)
deriving DecidableEq

/-- `true` exactly for results that are the module's own `ParseError`. -/
def isParseErrorResult {α : Type} : Except PError α → Bool
  | .error (.parseError _) => true
  | _ => false

/-! ### Character and string helpers modelling Python `str` methods -/

/-- ASCII whitespace, as stripped by Python `str.strip()` (Unicode whitespace
beyond ASCII is not exercised by any claim and is not modelled). -/
def isSpaceChar (c : Char) : Bool :=
  decide (c.toNat = 32) || decide (c.toNat = 9) || decide (c.toNat = 10) ||
  decide (c.toNat = 13) || decide (c.toNat = 11) || decide (c.toNat = 12)

/-- ASCII decimal digit. -/
def isAsciiDigit (c : Char) : Bool :=
  decide (48 ≤ c.toNat) && decide (c.toNat ≤ 57)

/-- Python `str.strip()` on the character list of a string. -/
def pyStrip (l : List Char) : List Char :=
  ((l.dropWhile isSpaceChar).reverse.dropWhile isSpaceChar).reverse

/-- Python `str.strip()`. -/
def pyStripStr (s : String) : String :=
  String.mk (pyStrip s.data)

/-- Helper for `pySplit`: accumulates the current chunk (reversed). -/
def pySplitAux : List Char → List Char → List String
  | [], acc => [String.mk acc.reverse]
  | c :: rest, acc =>
    if c = ' ' then String.mk acc.reverse :: pySplitAux rest []
    else pySplitAux rest (c :: acc)

/-- Python `str.split(" ")`: splits on every single space, keeping empty
chunks (e.g. `"a  b"` ↦ `["a", "", "b"]`, `""` ↦ `[""]`). -/
def pySplit (s : String) : List String :=
  pySplitAux s.data []

/-- Python `str.split(",")` used for font families. -/
def pySplitCommaAux : List Char → List Char → List String
  | [], acc => [String.mk acc.reverse]
  | c :: rest, acc =>
    if c = ',' then String.mk acc.reverse :: pySplitCommaAux rest []
    else pySplitCommaAux rest (c :: acc)

/-- Python `str.split(",")`. -/
def pySplitComma (s : String) : List String :=
  pySplitCommaAux s.data []

/-- Numeric value of a list of ASCII digits, most significant first. -/
def natOfDigits (l : List Char) : Nat :=
  l.foldl (fun acc c => acc * 10 + (c.toNat - 48)) 0

/-- Core of the model of Python `float(str)` on an unsigned literal:
`digits`, `digits.digits`, `digits.` or `.digits`.  Exponents, `inf`/`nan`
and underscore separators are accepted by Python but are not exercised by
any claim and are not modelled; the `isfinite` check in `Unit.parse` is
therefore vacuous here. -/
def pyFloatCore (l : List Char) : Option ℚ :=
  let intPart := l.takeWhile isAsciiDigit
  let rest := l.drop intPart.length
  match rest with
  | [] => if intPart = [] then none else some (natOfDigits intPart)
  | '.' :: frac =>
    if frac.all isAsciiDigit ∧ (intPart ≠ [] ∨ frac ≠ []) then
      some ((natOfDigits intPart : ℚ) + (natOfDigits frac : ℚ) / (10 ^ frac.length))
    else none
  | _ => none

/-- Model of Python `float(str)` (decimal subset), returning `none` where
Python raises `ValueError`. -/
def pyFloat (s : String) : Option ℚ :=
  match pyStrip s.data with
  | '-' :: rest => (pyFloatCore rest).map (fun q => -q)
  | '+' :: rest => pyFloatCore rest
  | l => pyFloatCore l

/-! ### `model.py`: value parsers -/

/-- `model.split_value`: strip, split on single spaces, drop empty chunks. -/
def split_value (value : String) : List String :=
  (pySplit (pyStripStr value)).filter (fun v => v ≠ "")

/-- `model.Unit.parse`.  `cell = true` is `Unit.CELL` (suffix `c`, raw cell
units), `cell = false` is `Unit.PERCENT` (suffix `%`, normalised to a
fraction).  Failures are `ValueError`, as in the source. -/
def Unit.parse (cell : Bool) (value : String) (max_value : Option ℚ) : Except PError ℚ :=
  let v := pyStrip value.data
  let suffix : Char := if cell then 'c' else '%'
  if v = [] ∨ v.getLast? ≠ some suffix then .error (.valueError value)
  else
    match pyFloat (String.mk v.dropLast) with
    | none => .error (.valueError value)
    | some n =>
      if n < 0 then .error (.valueError value)
      else
        match max_value with
        | some m =>
          if n > m then .error (.valueError value)
          else .ok (if cell then n else n / 100)
        | none => .ok (if cell then n else n / 100)

/-- `model.FontSize.parse`. -/
def FontSize.parse (value : String) : Except PError ℚ :=
  Unit.parse false value none

/-- `model.LineHeight.parse`: `"normal"` is `None`, otherwise a percent. -/
def LineHeight.parse (value : String) : Except PError (Option ℚ) :=
  let v := pyStripStr value
  if v = "normal" then .ok none
  else (Unit.parse false v none).map (fun q => some q)

/-- `model.LinePadding.parse`. -/
def LinePadding.parse (value : String) : Except PError ℚ :=
  Unit.parse true value none

/-- `model.Color` (a `NamedTuple` of four Python ints). -/
structure Color where
  red : Int
  green : Int
  blue : Int
  alpha : Int
deriving DecidableEq

/-- `model.Color.is_valid`. -/
def Color.is_valid (c : Color) : Bool :=
  decide (0 ≤ c.red) && decide (c.red ≤ 255) &&
  decide (0 ≤ c.green) && decide (c.green ≤ 255) &&
  decide (0 ≤ c.blue) && decide (c.blue ≤ 255) &&
  decide (0 ≤ c.alpha) && decide (c.alpha ≤ 255)

/-- `model.Color.black`. -/
def Color.black : Color := ⟨0, 0, 0, 255⟩

/-- `model.Color.white`. -/
def Color.white : Color := ⟨255, 255, 255, 255⟩

/-- `model.Color.transparent`. -/
def Color.transparent : Color := ⟨0, 0, 0, 0⟩

/-- Hexadecimal digit test (`0-9a-fA-F`). -/
def isHexDigit (c : Char) : Bool :=
  isAsciiDigit c || (decide (97 ≤ c.toNat) && decide (c.toNat ≤ 102)) ||
  (decide (65 ≤ c.toNat) && decide (c.toNat ≤ 70))

/-- Numeric value of a hexadecimal digit. -/
def hexVal (c : Char) : Nat :=
  if isAsciiDigit c then c.toNat - 48
  else if decide (97 ≤ c.toNat) && decide (c.toNat ≤ 102) then c.toNat - 87
  else c.toNat - 55

/-- Channel value of two hexadecimal digits, as `int(·, base=16)` yields it. -/
def hexPairVal (c1 c2 : Char) : Int :=
  ((hexVal c1 * 16 + hexVal c2 : Nat) : Int)

/-- Model of Python `int(s, base=16)` on the two-character slices taken by
`Color.parse`.  Two hex digits give their value; `int` also accepts a sign
before a single digit (whitespace and underscore forms are not exercised by
any claim and are not modelled). -/
def intBase16Pair (c1 c2 : Char) : Option Int :=
  if isHexDigit c1 && isHexDigit c2 then some (hexPairVal c1 c2)
  else if decide (c1 = '-') && isHexDigit c2 then some (-((hexVal c2 : Nat) : Int))
  else if decide (c1 = '+') && isHexDigit c2 then some ((hexVal c2 : Nat) : Int)
  else none

/-- The four channel conversions of `model.Color.parse`; `alpha` is the
`int(v[6:8], base=16) if len(v) == 8 else 0` branch. -/
def mkParsedColor (r1 r2 g1 g2 b1 b2 : Char) (alphaDigits : Option (Char × Char))
    (value : String) : Except PError Color :=
  let alphaVal : Option Int :=
    match alphaDigits with
    | none => some 0
    | some (a1, a2) => intBase16Pair a1 a2
  match intBase16Pair r1 r2, intBase16Pair g1 g2, intBase16Pair b1 b2, alphaVal with
  | some r, some g, some b, some a =>
    let color : Color := ⟨r, g, b, a⟩
    if color.is_valid then .ok color else .error (.valueError value)
  | _, _, _, _ => .error (.valueError value)

/-- `model.Color.parse`: `#RRGGBB` (alpha forced to 0) or `#RRGGBBAA`. -/
def Color.parse (value : String) : Except PError Color :=
  match pyStrip value.data with
  | '#' :: rest =>
    match rest with
    | [r1, r2, g1, g2, b1, b2] => mkParsedColor r1 r2 g1 g2 b1 b2 none value
    | [r1, r2, g1, g2, b1, b2, a1, a2] => mkParsedColor r1 r2 g1 g2 b1 b2 (some (a1, a2)) value
    | _ => .error (.valueError value)
  | _ => .error (.valueError value)

/-! ### `model.py`: enumerations -/

/-- `model.Direction`. -/
inductive Direction where
  | ltr
  | rtl
deriving DecidableEq

/-- `model.Direction.parse`. -/
def Direction.parse (value : String) : Except PError Direction :=
  match pyStripStr value with
  | "ltr" => .ok .ltr
  | "rtl" => .ok .rtl
  | _ => .error (.valueError value)

/-- `model.DisplayAlign`. -/
inductive DisplayAlign where
  | before
  | center
  | after
deriving DecidableEq

/-- `model.DisplayAlign.parse`. -/
def DisplayAlign.parse (value : String) : Except PError DisplayAlign :=
  match pyStripStr value with
  | "before" => .ok .before
  | "center" => .ok .center
  | "after" => .ok .after
  | _ => .error (.valueError value)

/-- `model.FontStyle`. -/
inductive FontStyle where
  | normal
  | italic
deriving DecidableEq

/-- `model.FontStyle.parse`. -/
def FontStyle.parse (value : String) : Except PError FontStyle :=
  match pyStripStr value with
  | "normal" => .ok .normal
  | "italic" => .ok .italic
  | _ => .error (.valueError value)

/-- `model.FontWeight`. -/
inductive FontWeight where
  | normal
  | bold
deriving DecidableEq

/-- `model.FontWeight.parse`. -/
def FontWeight.parse (value : String) : Except PError FontWeight :=
  match pyStripStr value with
  | "normal" => .ok .normal
  | "bold" => .ok .bold
  | _ => .error (.valueError value)

/-- `model.MultiRowAlign`. -/
inductive MultiRowAlign where
  | auto
  | start
  | center
  | finish
deriving DecidableEq

/-- `model.MultiRowAlign.parse` (the source's `END` variant is named `finish`
here because `end` is a Lean keyword). -/
def MultiRowAlign.parse (value : String) : Except PError MultiRowAlign :=
  match pyStripStr value with
  | "auto" => .ok .auto
  | "start" => .ok .start
  | "center" => .ok .center
  | "end" => .ok .finish
  | _ => .error (.valueError value)

/-- `model.Overflow`. -/
inductive Overflow where
  | hidden
  | visible
deriving DecidableEq

/-- `model.Overflow.parse`. -/
def Overflow.parse (value : String) : Except PError Overflow :=
  match pyStripStr value with
  | "hidden" => .ok .hidden
  | "visible" => .ok .visible
  | _ => .error (.valueError value)

/-- `model.ShowBackground`. -/
inductive ShowBackground where
  | always
  | whenActive
deriving DecidableEq

/-- `model.ShowBackground.parse`. -/
def ShowBackground.parse (value : String) : Except PError ShowBackground :=
  match pyStripStr value with
  | "always" => .ok .always
  | "whenActive" => .ok .whenActive
  | _ => .error (.valueError value)

/-- `model.TextAlign`. -/
inductive TextAlign where
  | left
  | center
  | right
  | start
  | finish
deriving DecidableEq

/-- `model.TextAlign.parse` (the source's `END` variant is named `finish`
here because `end` is a Lean keyword). -/
def TextAlign.parse (value : String) : Except PError TextAlign :=
  match pyStripStr value with
  | "left" => .ok .left
  | "center" => .ok .center
  | "right" => .ok .right
  | "start" => .ok .start
  | "end" => .ok .finish
  | _ => .error (.valueError value)

/-- `model.TextDecoration`. -/
inductive TextDecoration where
  | none
  | underline
deriving DecidableEq

/-- `model.TextDecoration.parse`. -/
def TextDecoration.parse (value : String) : Except PError TextDecoration :=
  match pyStripStr value with
  | "none" => .ok .none
  | "underline" => .ok .underline
  | _ => .error (.valueError value)

/-- `model.Space`. -/
inductive Space where
  | default
  | preserve
deriving DecidableEq

/-- `model.Space.parse`. -/
def Space.parse (value : String) : Except PError Space :=
  match pyStripStr value with
  | "default" => .ok .default
  | "preserve" => .ok .preserve
  | _ => .error (.valueError value)

/-- `model.UnicodeBidi`. -/
inductive UnicodeBidi where
  | normal
  | embed
  | bidiOverride
deriving DecidableEq

/-- `model.UnicodeBidi.parse`. -/
def UnicodeBidi.parse (value : String) : Except PError UnicodeBidi :=
  match pyStripStr value with
  | "normal" => .ok .normal
  | "embed" => .ok .embed
  | "bidiOverride" => .ok .bidiOverride
  | _ => .error (.valueError value)

/-- `model.WrapOption`. -/
inductive WrapOption where
  | wrap
  | noWrap
deriving DecidableEq

/-- `model.WrapOption.parse`. -/
def WrapOption.parse (value : String) : Except PError WrapOption :=
  match pyStripStr value with
  | "wrap" => .ok .wrap
  | "noWrap" => .ok .noWrap
  | _ => .error (.valueError value)

/-- `model.WritingMode`. -/
inductive WritingMode where
  | lrtb
  | rltb
  | tbrl
  | tblr
deriving DecidableEq

/-- `model.WritingMode.parse` (two-letter abbreviations allowed). -/
def WritingMode.parse (value : String) : Except PError WritingMode :=
  match pyStripStr value with
  | "lrtb" => .ok .lrtb
  | "lr" => .ok .lrtb
  | "rltb" => .ok .rltb
  | "rl" => .ok .rltb
  | "tbrl" => .ok .tbrl
  | "tb" => .ok .tbrl
  | "tblr" => .ok .tblr
  | _ => .error (.valueError value)

/-! ### `model.py`: geometry tuples -/

/-- `model.Origin`. -/
structure Origin where
  x : ℚ := 0
  y : ℚ := 0
deriving DecidableEq

/-- `model.Origin.parse`: exactly two percentages bounded by 100. -/
def Origin.parse (value : String) : Except PError Origin :=
  match split_value value with
  | [v0, v1] =>
    match Unit.parse false v0 (some 100) with
    | .error e => .error e
    | .ok x =>
      match Unit.parse false v1 (some 100) with
      | .error e => .error e
      | .ok y => .ok ⟨x, y⟩
  | _ => .error (.valueError value)

/-- `model.Extent`. -/
structure Extent where
  width : ℚ := 0
  height : ℚ := 0
deriving DecidableEq

/-- `model.Extent.parse`: exactly two percentages bounded by 100. -/
def Extent.parse (value : String) : Except PError Extent :=
  match split_value value with
  | [v0, v1] =>
    match Unit.parse false v0 (some 100) with
    | .error e => .error e
    | .ok width =>
      match Unit.parse false v1 (some 100) with
      | .error e => .error e
      | .ok height => .ok ⟨width, height⟩
  | _ => .error (.valueError value)

/-- `model.Padding` (CSS-shorthand sides). -/
structure Padding where
  before : ℚ := 0
  «end» : ℚ := 0
  after : ℚ := 0
  start : ℚ := 0
deriving DecidableEq

/-- One iteration of the `for i, v in enumerate(values)` match in
`model.Padding.parse`.  The `i = 3` branch (`case _`) is in the source but is
unreachable because of the `len(values) > 3` guard. -/
def Padding.applyAt (p : Padding) (i : Nat) (length : ℚ) : Padding :=
  match i with
  | 0 => { before := length, «end» := length, after := length, start := length }
  | 1 => { p with «end» := length, start := length }
  | 2 => { p with after := length }
  | _ => { p with start := length }

/-- The loop of `model.Padding.parse`. -/
def Padding.parseValues : Nat → List String → Padding → Except PError Padding
  | _, [], p => .ok p
  | i, v :: rest, p =>
    match Unit.parse false v none with
    | .error e => .error e
    | .ok length => Padding.parseValues (i + 1) rest (p.applyAt i length)

/-- `model.Padding.parse`: note the guard rejects empty lists and lists of
MORE THAN THREE values (`len(values) > 3`). -/
def Padding.parse (value : String) : Except PError Padding :=
  let values := split_value value
  if values = [] ∨ values.length > 3 then .error (.valueError value)
  else Padding.parseValues 0 values {}

/-- `model.TextOutline`. -/
structure TextOutline where
  color : Option Color := none
  thickness : ℚ := 0
  blur_radius : Option ℚ := none
deriving DecidableEq

/-- `model.TextOutline.parse`. -/
def TextOutline.parse (value : String) : Except PError (Option TextOutline) :=
  match split_value value with
  | [] => .error (.valueError value)
  | values =>
    if values = ["none"] then .ok none
    else if values.length > 3 then .error (.valueError value)
    else
      let colorStep : Except PError (Option Color × List String) :=
        match values with
        | v :: rest =>
          if v.data.head? = some '#' then
            if rest = [] then .error (.valueError value)
            else (Color.parse v).map (fun c => (some c, rest))
          else .ok (none, values)
        | [] => .ok (none, values)
      match colorStep with
      | .error e => .error e
      | .ok (color, vs) =>
        match vs with
        | [] => .error (.valueError value)
        | t :: more =>
          match Unit.parse false t none with
          | .error e => .error e
          | .ok thickness =>
            match more with
            | [] => .ok (some ⟨color, thickness, none⟩)
            | b :: _ =>
              match Unit.parse false b none with
              | .error e => .error e
              | .ok blur => .ok (some ⟨color, thickness, some blur⟩)

/-- `model.CellResolution` (defaults 32 × 15). -/
structure CellResolution where
  columns : Int := 32
  rows : Int := 15
deriving DecidableEq

/-! ### `model.py`: style records and the cascade accumulator -/

/-- `model.StyleProperties`: a `TypedDict` with `total=False`, i.e. every key
independently present or absent.  `line_height` and `text_outline` store an
optional value, so key presence and value are modelled as nested `Option`s. -/
structure StyleProperties where
  background_color : Option Color := none
  color : Option Color := none
  direction : Option Direction := none
  fill_line_gap : Option Bool := none
  font_family : Option (List String) := none
  font_size : Option ℚ := none
  font_style : Option FontStyle := none
  font_weight : Option FontWeight := none
  line_height : Option (Option ℚ) := none
  line_padding : Option ℚ := none
  multi_row_align : Option MultiRowAlign := none
  text_align : Option TextAlign := none
  text_decoration : Option TextDecoration := none
  text_outline : Option (Option TextOutline) := none
  unicode_bidi : Option UnicodeBidi := none
  wrap_option : Option WrapOption := none
deriving DecidableEq

def COMPUTE_FONT_SIZE_BIT : Nat := 1

def COMPUTE_LINE_HEIGHT_BIT : Nat := 2

def COMPUTE_LINE_PADDING_BIT : Nat := 4

def COMPUTE_TEXT_OUTLINE_BIT : Nat := 8

def COMPUTE_ALL_MASK : Nat :=
  COMPUTE_FONT_SIZE_BIT ||| COMPUTE_LINE_HEIGHT_BIT |||
  COMPUTE_LINE_PADDING_BIT ||| COMPUTE_TEXT_OUTLINE_BIT

/-- `model.default_font_family`. -/
def default_font_family : List String := ["default"]

/-- `model.ResolvedStyle` with its dataclass defaults. -/
structure ResolvedStyle where
  background_color : Color := Color.transparent
  color : Color := Color.white
  direction : Direction := .ltr
  fill_line_gap : Bool := false
  font_family : List String := default_font_family
  font_size : ℚ := 1
  font_style : FontStyle := .normal
  font_weight : FontWeight := .normal
  line_height : Option ℚ := none
  line_padding : ℚ := 0
  multi_row_align : MultiRowAlign := .auto
  text_align : TextAlign := .start
  text_decoration : TextDecoration := .none
  text_outline : Option TextOutline := none
  unicode_bidi : UnicodeBidi := .normal
  wrap_option : WrapOption := .wrap
deriving DecidableEq

/-- `model.ResolvedStyle.compute`.  Sequential, as in the source: the
line-height and text-outline conversions use the font size as just updated
by the font-size conversion of the same call. -/
def ResolvedStyle.compute (s : ResolvedStyle) (mask : Nat)
    (parent_font_size : Option ℚ) (cell_resolution : CellResolution) : ResolvedStyle :=
  let compute_font_size := mask &&& COMPUTE_FONT_SIZE_BIT ≠ 0
  let fs : ℚ :=
    if compute_font_size then
      match parent_font_size with
      | none => s.font_size * 1 / (cell_resolution.rows : ℚ)
      | some parent => s.font_size * parent
    else s.font_size
  let lh : Option ℚ :=
    if compute_font_size ∨ mask &&& COMPUTE_LINE_HEIGHT_BIT ≠ 0 then
      s.line_height.map (fun v => v * fs)
    else s.line_height
  let lp : ℚ :=
    if mask &&& COMPUTE_LINE_PADDING_BIT ≠ 0 then
      s.line_padding * 1 / (cell_resolution.columns : ℚ)
    else s.line_padding
  let tout : Option TextOutline :=
    if compute_font_size ∨ mask &&& COMPUTE_TEXT_OUTLINE_BIT ≠ 0 then
      s.text_outline.map (fun o =>
        { o with thickness := o.thickness * fs, blur_radius := o.blur_radius.map (fun b => b * fs) })
    else s.text_outline
  { s with font_size := fs, line_height := lh, line_padding := lp, text_outline := tout }

/-- `model.ResolvedStyle.inherited`: reset of the two non-inheriting
properties. -/
def ResolvedStyle.inherited (s : ResolvedStyle) : ResolvedStyle :=
  { s with background_color := Color.transparent, unicode_bidi := .normal }

/-- `model.ResolvedStyle.merge_properties`.  Each `if v := properties.get(...)`
in the source overwrites only when the value is TRUTHY: colors (4-tuples) and
enum members are always truthy, but `False`, `0.0` and `[]` are falsy and are
skipped; `line_height` and `text_outline` use `"..." in properties`, a pure
presence check.  Returns the accumulator and the compute mask. -/
def ResolvedStyle.merge_properties (s : ResolvedStyle) (p : StyleProperties) :
    ResolvedStyle × Nat :=
  ({ background_color :=
      match p.background_color with
      | some v => v
      | none => s.background_color
     color :=
      match p.color with
      | some v => v
      | none => s.color
     direction :=
      match p.direction with
      | some v => v
      | none => s.direction
     fill_line_gap :=
      match p.fill_line_gap with
      | some true => true
      | _ => s.fill_line_gap
     font_family :=
      match p.font_family with
      | some v => if v = [] then s.font_family else v
      | none => s.font_family
     font_size :=
      match p.font_size with
      | some v => if v = 0 then s.font_size else v
      | none => s.font_size
     font_style :=
      match p.font_style with
      | some v => v
      | none => s.font_style
     font_weight :=
      match p.font_weight with
      | some v => v
      | none => s.font_weight
     line_height :=
      match p.line_height with
      | some v => v
      | none => s.line_height
     line_padding :=
      match p.line_padding with
      | some v => if v = 0 then s.line_padding else v
      | none => s.line_padding
     multi_row_align :=
      match p.multi_row_align with
      | some v => v
      | none => s.multi_row_align
     text_align :=
      match p.text_align with
      | some v => v
      | none => s.text_align
     text_decoration :=
      match p.text_decoration with
      | some v => v
      | none => s.text_decoration
     text_outline :=
      match p.text_outline with
      | some v => v
      | none => s.text_outline
     unicode_bidi :=
      match p.unicode_bidi with
      | some v => v
      | none => s.unicode_bidi
     wrap_option :=
      match p.wrap_option with
      | some v => v
      | none => s.wrap_option },
   (if p.line_height.isSome then COMPUTE_LINE_HEIGHT_BIT else 0) |||
   (if p.text_outline.isSome then COMPUTE_TEXT_OUTLINE_BIT else 0) |||
   (match p.font_size with
    | some v => if v = 0 then 0 else COMPUTE_FONT_SIZE_BIT
    | none => 0) |||
   (match p.line_padding with
    | some v => if v = 0 then 0 else COMPUTE_LINE_PADDING_BIT
    | none => 0))

/-! ### `parse.py`: context and the cascade resolver -/

/-- `parse.Context`: the identifier registry and the style and region tables
(`regions` maps a region id to its index in the document's region list and
its raw style-reference string).  The sets and dicts are modelled as lists;
`add_id` keeps `ids` duplicate-free exactly as a Python `set` is. -/
structure Context where
  ids : List String := []
  styles : List (String × StyleProperties) := []
  regions : List (String × (Nat × String)) := []
deriving DecidableEq

/-- `parse.Context.add_id`. -/
def Context.add_id (ctx : Context) (id : String) : Except PError Context :=
  if id ∈ ctx.ids then .error (.parseError ("Non unique identifier: " ++ id))
  else .ok { ctx with ids := id :: ctx.ids }

/-- Python `dict` lookup on the style table. -/
def stylesGet (styles : List (String × StyleProperties)) (id : String) :
    Option StyleProperties :=
  (styles.find? (fun e => e.1 = id)).map (fun e => e.2)

/-- Python `dict` lookup on the region table. -/
def regionsGet (regions : List (String × (Nat × String))) (id : String) :
    Option (Nat × String) :=
  (regions.find? (fun e => e.1 = id)).map (fun e => e.2)

/-- The inner loop of `parse._resolve_style`: one scope's reference string has
been split on `" "` into `ids`; empty chunks are skipped; each identifier is
looked up, merged, and the unit computation runs immediately, after which the
parent font-size basis is updated to the just-resolved font size. -/
def mergeScopeIds (styles : List (String × StyleProperties)) (cr : CellResolution) :
    List String → ResolvedStyle × ℚ → Except PError (ResolvedStyle × ℚ)
  | [], st => .ok st
  | id :: rest, (rs, parent_font_size) =>
    if id = "" then mergeScopeIds styles cr rest (rs, parent_font_size)
    else
      match stylesGet styles id with
      | none => .error (.parseError "Invalid style id: \x7bid\x7d")
      | some properties =>
        let merged := rs.merge_properties properties
        let rs := merged.1.compute merged.2 (some parent_font_size) cr
        mergeScopeIds styles cr rest (rs, rs.font_size)

/-- The outer loop of `parse._resolve_style` over the scope stack; `first` is
true exactly for index 0, every later scope first resets the non-inheriting
properties via `inherited`. -/
def resolveScopes (styles : List (String × StyleProperties)) (cr : CellResolution) :
    List String → Bool → ResolvedStyle × ℚ → Except PError (ResolvedStyle × ℚ)
  | [], _, st => .ok st
  | value :: rest, first, (rs, parent_font_size) =>
    let rs := if first then rs else rs.inherited
    match mergeScopeIds styles cr (pySplit value) (rs, parent_font_size) with
    | .error e => .error e
    | .ok st => resolveScopes styles cr rest false st

/-- `parse._resolve_style`: seed the accumulator with class defaults, run the
unit computation for all four relative-unit properties with no parent basis
(converting the default font size via the cell-resolution row count), then
process the scope stack outermost-first. -/
def resolve_style (styles : List (String × StyleProperties)) (cr : CellResolution)
    (style_stack : List String) : Except PError ResolvedStyle :=
  let resolved_style := ResolvedStyle.compute {} COMPUTE_ALL_MASK none cr
  (resolveScopes styles cr style_stack true (resolved_style, resolved_style.font_size)).map
    (fun st => st.1)

/-! ### `parse.py`: attribute names and the element tree -/

def XML_NS : String := "http://www.w3.org/XML/1998/namespace"

def TTS_NS : String := "http://www.w3.org/ns/ttml#styling"

def ITTS_NS : String := "http://www.w3.org/ns/ttml/profile/imsc1#styling"

def EBUTTS_NS : String := "urn:ebu:tt:style"

/-- The `f"{{{NS}}}name"` qualified-name scheme of `parse.py`. -/
def qname (ns name : String) : String :=
  "\x7b" ++ ns ++ "\x7d" ++ name

def ID_ATTR : String := qname XML_NS "id"

def BACKGROUND_COLOR_ATTR : String := qname TTS_NS "backgroundColor"

def COLOR_ATTR : String := qname TTS_NS "color"

def DIRECTION_ATTR : String := qname TTS_NS "direction"

def FILL_LINE_GAP_ATTR : String := qname ITTS_NS "fillLineGap"

def FONT_FAMILY_ATTR : String := qname TTS_NS "fontFamily"

def FONT_SIZE_ATTR : String := qname TTS_NS "fontSize"

def FONT_STYLE_ATTR : String := qname TTS_NS "fontStyle"

def FONT_WEIGHT_ATTR : String := qname TTS_NS "fontWeight"

def LINE_HEIGHT_ATTR : String := qname TTS_NS "lineHeight"

def LINE_PADDING_ATTR : String := qname EBUTTS_NS "linePadding"

def MULTI_ROW_ALIGN_ATTR : String := qname EBUTTS_NS "multiRowAlign"

def TEXT_ALIGN_ATTR : String := qname TTS_NS "textAlign"

def TEXT_DECORATION_ATTR : String := qname TTS_NS "textDecoration"

def TEXT_OUTLINE_ATTR : String := qname TTS_NS "textOutline"

def UNICODE_BIDI_ATTR : String := qname TTS_NS "unicodeBidi"

def WRAP_OPTION_ATTR : String := qname TTS_NS "wrapOption"

def ORIGIN_ATTR : String := qname TTS_NS "origin"

def EXTENT_ATTR : String := qname TTS_NS "extent"

def DISPLAY_ALIGN_ATTR : String := qname TTS_NS "displayAlign"

def OVERFLOW_ATTR : String := qname TTS_NS "overflow"

def PADDING_ATTR : String := qname TTS_NS "padding"

def SHOW_BACKGROUND_ATTR : String := qname TTS_NS "showBackground"

def WRITING_MODE_ATTR : String := qname TTS_NS "writingMode"

def TT_NS : String := "http://www.w3.org/ns/ttml"

def STYLE_ELEM : String := qname TT_NS "style"

def REGION_ELEM : String := qname TT_NS "region"

/-- A DOM element as seen by the per-element attribute loops of `parse.py`:
tag and ordered attribute list (`elem.items()`); children and text are walked
by parts of the traversal not needed by the claims. -/
structure Element where
  tag : String := ""
  attrs : List (String × String) := []
deriving DecidableEq

/-- Python `Element.get(name)`: the attribute's value, or `None`. -/
def pyGet (attrs : List (String × String)) (name : String) : Option String :=
  (attrs.find? (fun e => e.1 = name)).map (fun e => e.2)

/-- `parse._parse_id`: the walrus `if v := elem.get(ID_ATTR)` treats the empty
string as absent. -/
def parse_id (elem : Element) (required : Bool) : Except PError String :=
  match pyGet elem.attrs ID_ATTR with
  | some v =>
    if v = "" then
      if required then .error (.parseError ("Missing `id` attribute on " ++ elem.tag))
      else .ok ""
    else
      let s := pyStripStr v
      if s ≠ "" then .ok s
      else .error (.parseError ("Empty `id` attribute on " ++ elem.tag))
  | none =>
    if required then .error (.parseError ("Missing `id` attribute on " ++ elem.tag))
    else .ok ""

/-! ### `parse.py`: style and region element parsing -/

/-- One iteration of the `for name, value in elem.items()` loop of
`parse._parse_styles`.  NOTE: the value parsers' `ValueError`s are NOT caught
here; they propagate out unchanged.  The `fillLineGap` branch raises the
module's own `ParseError` (with the source's typo `Invaid`). -/
def parse_style_attr (properties : StyleProperties) (name value : String) :
    Except PError StyleProperties :=
  if name = BACKGROUND_COLOR_ATTR then
    (Color.parse value).map (fun v => { properties with background_color := some v })
  else if name = COLOR_ATTR then
    (Color.parse value).map (fun v => { properties with color := some v })
  else if name = DIRECTION_ATTR then
    (Direction.parse value).map (fun v => { properties with direction := some v })
  else if name = FILL_LINE_GAP_ATTR then
    match pyStripStr value with
    | "true" => .ok { properties with fill_line_gap := some true }
    | "false" => .ok { properties with fill_line_gap := some false }
    | _ => .error (.parseError ("Invaid `fillLineGap` attribute: " ++ value))
  else if name = FONT_FAMILY_ATTR then
    .ok { properties with
          font_family := some ((pySplitComma (pyStripStr value)).filter (fun v => v ≠ "")) }
  else if name = FONT_SIZE_ATTR then
    (FontSize.parse value).map (fun v => { properties with font_size := some v })
  else if name = FONT_STYLE_ATTR then
    (FontStyle.parse value).map (fun v => { properties with font_style := some v })
  else if name = FONT_WEIGHT_ATTR then
    (FontWeight.parse value).map (fun v => { properties with font_weight := some v })
  else if name = LINE_HEIGHT_ATTR then
    (LineHeight.parse value).map (fun v => { properties with line_height := some v })
  else if name = LINE_PADDING_ATTR then
    (LinePadding.parse value).map (fun v => { properties with line_padding := some v })
  else if name = MULTI_ROW_ALIGN_ATTR then
    (MultiRowAlign.parse value).map (fun v => { properties with multi_row_align := some v })
  else if name = TEXT_ALIGN_ATTR then
    (TextAlign.parse value).map (fun v => { properties with text_align := some v })
  else if name = TEXT_DECORATION_ATTR then
    (TextDecoration.parse value).map (fun v => { properties with text_decoration := some v })
  else if name = TEXT_OUTLINE_ATTR then
    (TextOutline.parse value).map (fun v => { properties with text_outline := some v })
  else if name = UNICODE_BIDI_ATTR then
    (UnicodeBidi.parse value).map (fun v => { properties with unicode_bidi := some v })
  else if name = WRAP_OPTION_ATTR then
    (WrapOption.parse value).map (fun v => { properties with wrap_option := some v })
  else .ok properties

/-- The attribute loop of `parse._parse_styles` for one `style` element. -/
def parse_style_attrs : List (String × String) → StyleProperties →
    Except PError StyleProperties
  | [], properties => .ok properties
  | (name, value) :: rest, properties =>
    match parse_style_attr properties name value with
    | .error e => .error e
    | .ok properties => parse_style_attrs rest properties

/-- `parse._parse_styles`: the loop over the styling section's children. -/
def parse_styles : List Element → Context → Except PError Context
  | [], ctx => .ok ctx
  | elem :: rest, ctx =>
    if elem.tag ≠ STYLE_ELEM then parse_styles rest ctx
    else
      match parse_id elem true with
      | .error e => .error e
      | .ok id =>
        match ctx.add_id id with
        | .error e => .error e
        | .ok ctx =>
          match parse_style_attrs elem.attrs {} with
          | .error e => .error e
          | .ok properties =>
            parse_styles rest { ctx with styles := ctx.styles ++ [(id, properties)] }

/-- `model.Region` with its dataclass defaults. -/
structure Region where
  origin : Origin := {}
  extent : Extent := {}
  display_align : DisplayAlign := .before
  overflow : Overflow := .hidden
  padding : Padding := {}
  show_background : ShowBackground := .always
  writing_mode : WritingMode := .lrtb
deriving DecidableEq

/-- One iteration of the attribute loop of `parse._parse_regions`; the state
is the region under construction, the `origin_parsed` / `extent_parsed` flags
and the raw `style` reference string. -/
def parse_region_attr (st : Region × Bool × Bool × String) (name value : String) :
    Except PError (Region × Bool × Bool × String) :=
  let region := st.1
  let origin_parsed := st.2.1
  let extent_parsed := st.2.2.1
  let style := st.2.2.2
  if name = ORIGIN_ATTR then
    (Origin.parse value).map (fun v => ({ region with origin := v }, true, extent_parsed, style))
  else if name = EXTENT_ATTR then
    (Extent.parse value).map (fun v => ({ region with extent := v }, origin_parsed, true, style))
  else if name = "style" then
    .ok (region, origin_parsed, extent_parsed, pyStripStr value)
  else if name = DISPLAY_ALIGN_ATTR then
    (DisplayAlign.parse value).map (fun v =>
      ({ region with display_align := v }, origin_parsed, extent_parsed, style))
  else if name = OVERFLOW_ATTR then
    (Overflow.parse value).map (fun v =>
      ({ region with overflow := v }, origin_parsed, extent_parsed, style))
  else if name = PADDING_ATTR then
    (Padding.parse value).map (fun v =>
      ({ region with padding := v }, origin_parsed, extent_parsed, style))
  else if name = SHOW_BACKGROUND_ATTR then
    (ShowBackground.parse value).map (fun v =>
      ({ region with show_background := v }, origin_parsed, extent_parsed, style))
  else if name = WRITING_MODE_ATTR then
    (WritingMode.parse value).map (fun v =>
      ({ region with writing_mode := v }, origin_parsed, extent_parsed, style))
  else .ok st

/-- The attribute loop of `parse._parse_regions` for one `region` element. -/
def parse_region_attrs : List (String × String) → Region × Bool × Bool × String →
    Except PError (Region × Bool × Bool × String)
  | [], st => .ok st
  | (name, value) :: rest, st =>
    match parse_region_attr st name value with
    | .error e => .error e
    | .ok st => parse_region_attrs rest st

/-- The per-element body of `parse._parse_regions` after the id has been
registered: run the attribute loop from the dataclass-default `Region`, then
require that both `origin` and `extent` were seen. -/
def parse_region_body (attrs : List (String × String)) :
    Except PError (Region × String) :=
  match parse_region_attrs attrs ({}, false, false, "") with
  | .error e => .error e
  | .ok (region, origin_parsed, extent_parsed, style) =>
    if ¬origin_parsed then .error (.parseError "Missing `origin` attribute")
    else if ¬extent_parsed then .error (.parseError "Missing `extent` attribute")
    else .ok (region, style)

/-! ### `parse.py`: paragraph region resolution and the timecode scanner -/

/-- The region-resolution block of `parse._parse_para` (its counterpart in
`parse._parse_div` supplies `parent_region_index`, `-1` when the div carries
no region reference).  Returns the paragraph's resolved region index and the
region's raw style-reference string. -/
def para_region_resolve (region_attr : String) (parent_region_index : Int)
    (regions : List (String × (Nat × String))) : Except PError (Int × String) :=
  let region_id := pyStripStr region_attr
  let lookedUp : Except PError (Int × String) :=
    if region_id ≠ "" then
      match regionsGet regions region_id with
      | some pair => .ok ((pair.1 : Int), pair.2)
      | none => .error (.parseError ("Invalid region identifier: " ++ region_id))
    else .ok (-1, "")
  match lookedUp with
  | .error e => .error e
  | .ok (region_index, region_style) =>
    if region_index ≠ -1 ∧ parent_region_index ≠ -1 then
      .error (.parseError "Multiple regions")
    else if region_index = -1 then
      if parent_region_index = -1 then .error (.parseError "Missing `region` attribute")
      else .ok (parent_region_index, region_style)
    else .ok (region_index, region_style)

/-- `parse.Scanner.scan_char`. -/
def scanChar (c : Char) : List Char → Option (List Char)
  | c0 :: rest => if c0 = c then some rest else none
  | [] => none

/-- `parse.Scanner.scan_int`: `num_digits = 0` means any positive count,
`limit = 0` means unbounded. -/
def scanInt (l : List Char) (num_digits limit : Nat) : Option (Nat × List Char) :=
  let count := (l.takeWhile isAsciiDigit).length
  if count = 0 ∨ (num_digits > 0 ∧ count ≠ num_digits) then none
  else
    let n := natOfDigits (l.take count)
    if limit > 0 ∧ n > limit then none
    else some (n, l.drop count)

/-- `parse._parse_timecode`: the one place in `parse.py` where a value
parser's `ValueError` is caught and converted into a `ParseError` naming the
attribute and the raw string.  (The source sums floats; the millisecond term
is exact here.) -/
def parse_timecode (attr input : String) : Except PError ℚ :=
  match (do
    let (h, r) ← scanInt input.data 0 0
    let r ← scanChar ':' r
    let (m, r) ← scanInt r 2 59
    let r ← scanChar ':' r
    let (s, r) ← scanInt r 2 59
    let r ← scanChar '.' r
    let (ms, r) ← scanInt r 3 0
    pure (((h : ℚ) * 3600 + (m : ℚ) * 60 + (s : ℚ) + (ms : ℚ) * (1 / 1000) : ℚ), r) :
      Option (ℚ × List Char)) with
  | none => .error (.parseError ("Invalid `" ++ attr ++ "` attribute value: " ++ input))
  | some (secs, rest) =>
    if rest ≠ [] then .error (.parseError ("Invalid `" ++ attr ++ "` attribute value: " ++ input))
    else .ok secs

/-! ### `parse.py`: scope-stack construction in the body walk -/

/-- `style_stack.append(style) if style else` nothing (deque back = list end),
as done for element-local style references in `_parse_div`, `_parse_para` and
`_parse_paragraph_content`. -/
def pushBack (stack : List String) (style : String) : List String :=
  if style ≠ "" then stack ++ [style] else stack

/-- `style_stack.appendleft(region_style) if region_style else` nothing
(deque front = list head), as done for region style references in
`_parse_div` and `_parse_para`. -/
def pushFront (stack : List String) (region_style : String) : List String :=
  if region_style ≠ "" then region_style :: stack else stack

/-- The scope stack in effect when `_parse_div` resolves a div's style:
region style at the front, element style at the back of the body stack. -/
def divScopeStack (bodyStack : List String) (region_style style : String) : List String :=
  pushBack (pushFront bodyStack region_style) style

/-- The scope stack in effect when `_parse_para` resolves a paragraph's
style, given the div-level stack. -/
def paraScopeStack (divStack : List String) (region_style style : String) : List String :=
  pushBack (pushFront divStack region_style) style

/-- The scope stack in effect when `_parse_paragraph_content` resolves a
span's style, given the paragraph-level stack. -/
def spanScopeStack (paraStack : List String) (style : String) : List String :=
  pushBack paraStack style

/-!
## Theorems

The rational operations of Batteries are `@[irreducible]` only for the
elaborator; re-marking them semireducible lets concrete cascade values be
settled by kernel reduction.
-/

attribute [local semireducible] Rat.mul Rat.add Rat.sub Rat.inv

/-- C9: the padding parser accepts 1 to 3 whitespace-separated percentages
with CSS shorthand expansion and rejects the empty list — but it REJECTS
four values (`len(values) > 3`), although the loop in the source carries an
(unreachable) fourth-value branch assigning `start`.  This theorem evaluates
the embedded parser on the three accepted shapes, the empty string, and the
failing four-value input. -/
theorem c9_padding_shorthand :
    Padding.parse "1%" = .ok ⟨1/100, 1/100, 1/100, 1/100⟩ ∧
    Padding.parse "1% 2%" = .ok ⟨1/100, 2/100, 1/100, 2/100⟩ ∧
    Padding.parse "1% 2% 3%" = .ok ⟨1/100, 2/100, 3/100, 2/100⟩ ∧
    Padding.parse "" = .error (.valueError "") ∧
    Padding.parse "1% 2% 3% 4%" = .error (.valueError "1% 2% 3% 4%") := by
  decide

/-- C7: the identifier registry rejects re-registration of an identifier that
is already present — whatever element kind first registered it, since there is
a single registry — with the uniqueness `ParseError`, and a fresh identifier
is added while keeping the registry duplicate-free. -/
theorem c7_identifier_registry (ctx : Context) (id : String) :
    (id ∈ ctx.ids →
      ctx.add_id id = .error (.parseError ("Non unique identifier: " ++ id))) ∧
    (id ∉ ctx.ids →
      ctx.add_id id = .ok { ctx with ids := id :: ctx.ids } ∧
        (ctx.ids.Nodup → (id :: ctx.ids).Nodup)) := by
  constructor
  · intro h
    simp [Context.add_id, h]
  · intro h
    refine ⟨by simp [Context.add_id, h], fun hn => ?_⟩
    exact List.nodup_cons.mpr ⟨h, hn⟩

/-- Witness for C7 at a concrete registry. -/
theorem c7_identifier_registry_witness :
    ("a" ∈ (⟨["a"], [], []⟩ : Context).ids) ∧
      (⟨["a"], [], []⟩ : Context).add_id "a" =
        .error (.parseError ("Non unique identifier: " ++ "a")) :=
  ⟨by decide, (c7_identifier_registry ⟨["a"], [], []⟩ "a").1 (by decide)⟩

/-- C4 fails on the code: merging a declaration whose `fillLineGap` key is
present with value `False` leaves the accumulator's `True` untouched, because
`if v := properties.get("fill_line_gap")` tests the VALUE for truthiness, not
the key for presence. -/
theorem c4_present_key_not_always_overwriting :
    (ResolvedStyle.merge_properties { fill_line_gap := true }
        { fill_line_gap := some false }).1.fill_line_gap = true ∧
      ¬(ResolvedStyle.merge_properties { fill_line_gap := true }
          { fill_line_gap := some false }).1.fill_line_gap = false := by
  decide

/-- C4 (amended): a present key overwrites the accumulator field for the two
colors, direction, the enumerations and the font-family list — whose parsed
values are truthy Python objects — and for `line_height` and `text_outline`,
which are tested by key presence and overwrite even with value `None`; but a
declared falsy value (`fillLineGap` false, font size 0, line padding 0, empty
font-family list) leaves the accumulator field unchanged. -/
theorem c4_merge_overwrite_amended (s : ResolvedStyle) (p : StyleProperties) :
    (∀ v, p.background_color = some v → (s.merge_properties p).1.background_color = v) ∧
    (∀ v, p.color = some v → (s.merge_properties p).1.color = v) ∧
    (∀ v, p.direction = some v → (s.merge_properties p).1.direction = v) ∧
    (p.fill_line_gap = some true → (s.merge_properties p).1.fill_line_gap = true) ∧
    (p.fill_line_gap = some false →
      (s.merge_properties p).1.fill_line_gap = s.fill_line_gap) ∧
    (∀ v, p.font_family = some v → v ≠ [] → (s.merge_properties p).1.font_family = v) ∧
    (p.font_family = some [] → (s.merge_properties p).1.font_family = s.font_family) ∧
    (∀ v, p.font_size = some v → v ≠ 0 → (s.merge_properties p).1.font_size = v) ∧
    (p.font_size = some 0 → (s.merge_properties p).1.font_size = s.font_size) ∧
    (∀ v, p.font_style = some v → (s.merge_properties p).1.font_style = v) ∧
    (∀ v, p.font_weight = some v → (s.merge_properties p).1.font_weight = v) ∧
    (∀ v, p.line_height = some v → (s.merge_properties p).1.line_height = v) ∧
    (∀ v, p.line_padding = some v → v ≠ 0 → (s.merge_properties p).1.line_padding = v) ∧
    (p.line_padding = some 0 → (s.merge_properties p).1.line_padding = s.line_padding) ∧
    (∀ v, p.multi_row_align = some v → (s.merge_properties p).1.multi_row_align = v) ∧
    (∀ v, p.text_align = some v → (s.merge_properties p).1.text_align = v) ∧
    (∀ v, p.text_decoration = some v → (s.merge_properties p).1.text_decoration = v) ∧
    (∀ v, p.text_outline = some v → (s.merge_properties p).1.text_outline = v) ∧
    (∀ v, p.unicode_bidi = some v → (s.merge_properties p).1.unicode_bidi = v) ∧
    (∀ v, p.wrap_option = some v → (s.merge_properties p).1.wrap_option = v) := by
  refine ⟨?_, ?_, ?_, ?_, ?_, ?_, ?_, ?_, ?_, ?_, ?_, ?_, ?_, ?_, ?_, ?_, ?_, ?_, ?_, ?_⟩ <;>
    first
      | (intro v hv hne
         simp [ResolvedStyle.merge_properties, hv, hne])
      | (intro v hv
         simp [ResolvedStyle.merge_properties, hv])
      | (intro hv
         simp [ResolvedStyle.merge_properties, hv])

/-- Witness for C4 (amended) at concrete inputs: a declared color overwrites,
a declared `fillLineGap := False` does not. -/
theorem c4_merge_overwrite_amended_witness :
    (({ fill_line_gap := true } : ResolvedStyle).merge_properties
        { background_color := some Color.black, fill_line_gap := some false }).1.background_color
        = Color.black ∧
      (({ fill_line_gap := true } : ResolvedStyle).merge_properties
          { background_color := some Color.black, fill_line_gap := some false }).1.fill_line_gap
        = ({ fill_line_gap := true } : ResolvedStyle).fill_line_gap :=
  ⟨(c4_merge_overwrite_amended { fill_line_gap := true }
      { background_color := some Color.black, fill_line_gap := some false }).1
      Color.black rfl,
   (c4_merge_overwrite_amended { fill_line_gap := true }
      { background_color := some Color.black, fill_line_gap := some false }).2.2.2.2.1 rfl⟩

/-- C6: a paragraph carrying a (declared) region reference inside a div that
also carries one is rejected (`Multiple regions`); a paragraph with neither is
rejected (`Missing ...`); a paragraph with exactly one — its own declared
reference, or the div's — succeeds and resolves to that region's index.  A div
without a region reference passes `parent_region_index = -1`. -/
theorem c6_paragraph_region_resolution (regions : List (String × (Nat × String)))
    (region_attr : String) (parent_region_index : Int) (idx : Nat) (st : String) :
    (pyStripStr region_attr ≠ "" →
      regionsGet regions (pyStripStr region_attr) = some (idx, st) →
      parent_region_index ≠ -1 →
      para_region_resolve region_attr parent_region_index regions =
        .error (.parseError "Multiple regions")) ∧
    (pyStripStr region_attr = "" → parent_region_index = -1 →
      para_region_resolve region_attr parent_region_index regions =
        .error (.parseError "Missing `region` attribute")) ∧
    (pyStripStr region_attr ≠ "" →
      regionsGet regions (pyStripStr region_attr) = some (idx, st) →
      parent_region_index = -1 →
      para_region_resolve region_attr parent_region_index regions =
        .ok ((idx : Int), st)) ∧
    (pyStripStr region_attr = "" → parent_region_index ≠ -1 →
      para_region_resolve region_attr parent_region_index regions =
        .ok (parent_region_index, "")) := by
  refine ⟨?_, ?_, ?_, ?_⟩
  · intro h1 h2 h3
    have hne : (idx : Int) ≠ -1 := by omega
    simp [para_region_resolve, h1, h2, hne, h3]
  · intro h1 h2
    simp [para_region_resolve, h1, h2]
  · intro h1 h2 h3
    have hne : (idx : Int) ≠ -1 := by omega
    simp [para_region_resolve, h1, h2, hne, h3]
  · intro h1 h2
    simp [para_region_resolve, h1, h2]

/-- Witness for C6: one declared region, referenced by the paragraph itself
while the div carries none. -/
theorem c6_paragraph_region_resolution_witness :
    pyStripStr "r1" ≠ "" ∧
      regionsGet [("r1", (0, "rs"))] (pyStripStr "r1") = some (0, "rs") ∧
      para_region_resolve "r1" (-1) [("r1", (0, "rs"))] = .ok ((0 : Nat), "rs") :=
  ⟨by decide, by decide,
    (c6_paragraph_region_resolution [("r1", (0, "rs"))] "r1" (-1) 0 "rs").2.2.1
      (by decide) (by decide) rfl⟩

/-- C5 fails on the code: a malformed style-attribute literal (here
`tts:fontSize="bogus"`) escapes `_parse_styles` as the raw value-rejection
signal (`ValueError`), NOT converted into a `ParseError`. -/
theorem c5_value_error_escapes_styles :
    parse_styles [⟨STYLE_ELEM, [(ID_ATTR, "s1"), (FONT_SIZE_ATTR, "bogus")]⟩] {} =
        .error (.valueError "bogus") ∧
      isParseErrorResult
        (parse_styles [⟨STYLE_ELEM, [(ID_ATTR, "s1"), (FONT_SIZE_ATTR, "bogus")]⟩] {}) =
        false := by
  decide

/-- C5 (amended): only the timecode parser converts value rejections into a
`ParseError` carrying the attribute name and the raw string — it never lets a
`ValueError` out; malformed style-attribute literals, by contrast, escape the
structural code as the value-rejection signal itself (second conjunct). -/
theorem c5_error_conversion_amended :
    (∀ attr input : String,
      parse_timecode attr input =
          .error (.parseError ("Invalid `" ++ attr ++ "` attribute value: " ++ input)) ∨
        ∃ v, parse_timecode attr input = .ok v) ∧
      parse_styles [⟨STYLE_ELEM, [(ID_ATTR, "s1"), (FONT_SIZE_ATTR, "bogus")]⟩] {} =
        .error (.valueError "bogus") := by
  constructor
  · intro attr input
    unfold parse_timecode
    split
    · exact Or.inl rfl
    · split
      · exact Or.inl rfl
      · exact Or.inr ⟨_, rfl⟩
  · decide

/-- Inversion for `Except.map` landing on `.ok`. -/
theorem except_map_ok {α β : Type} {f : α → β} {x : Except PError α} {b : β}
    (h : x.map f = .ok b) : ∃ a, x = .ok a ∧ b = f a := by
  cases x with
  | error e => cases h
  | ok a =>
    refine ⟨a, rfl, ?_⟩
    cases h
    rfl

/-- An attribute other than `tts:origin` never sets the `origin_parsed` flag. -/
theorem parse_region_attr_origin_flag (st : Region × Bool × Bool × String)
    (name value : String) (h : name ≠ ORIGIN_ATTR) (st' : Region × Bool × Bool × String)
    (hok : parse_region_attr st name value = .ok st') : st'.2.1 = st.2.1 := by
  revert hok
  simp only [parse_region_attr, if_neg h]
  split_ifs <;>
    (intro hok
     first
       | (cases hok; rfl)
       | (obtain ⟨v, -, rfl⟩ := except_map_ok hok; rfl))

/-- An attribute other than `tts:extent` never sets the `extent_parsed` flag. -/
theorem parse_region_attr_extent_flag (st : Region × Bool × Bool × String)
    (name value : String) (h : name ≠ EXTENT_ATTR) (st' : Region × Bool × Bool × String)
    (hok : parse_region_attr st name value = .ok st') : st'.2.2.1 = st.2.2.1 := by
  revert hok
  simp only [parse_region_attr]
  split_ifs <;>
    first
      | exact absurd (by assumption) h
      | (intro hok
         first
           | (cases hok; rfl)
           | (obtain ⟨v, -, rfl⟩ := except_map_ok hok; rfl))

/-- Over a whole attribute list without `tts:origin`, the `origin_parsed`
flag is unchanged. -/
theorem parse_region_attrs_origin_flag :
    ∀ (attrs : List (String × String)) (st st' : Region × Bool × Bool × String),
      ORIGIN_ATTR ∉ attrs.map Prod.fst →
      parse_region_attrs attrs st = .ok st' → st'.2.1 = st.2.1
  | [], st, st', _, hok => by
    cases hok
    rfl
  | (name, value) :: rest, st, st', hmem, hok => by
    simp only [List.map_cons, List.mem_cons, not_or] at hmem
    revert hok
    simp only [parse_region_attrs]
    cases ha : parse_region_attr st name value with
    | error e => intro hok; cases hok
    | ok st1 =>
      intro hok
      have h1 : st1.2.1 = st.2.1 :=
        parse_region_attr_origin_flag st name value (fun hc => hmem.1 hc.symm) st1 ha
      have h2 := parse_region_attrs_origin_flag rest st1 st' hmem.2 hok
      rw [h2, h1]

/-- Over a whole attribute list without `tts:extent`, the `extent_parsed`
flag is unchanged. -/
theorem parse_region_attrs_extent_flag :
    ∀ (attrs : List (String × String)) (st st' : Region × Bool × Bool × String),
      EXTENT_ATTR ∉ attrs.map Prod.fst →
      parse_region_attrs attrs st = .ok st' → st'.2.2.1 = st.2.2.1
  | [], st, st', _, hok => by
    cases hok
    rfl
  | (name, value) :: rest, st, st', hmem, hok => by
    simp only [List.map_cons, List.mem_cons, not_or] at hmem
    revert hok
    simp only [parse_region_attrs]
    cases ha : parse_region_attr st name value with
    | error e => intro hok; cases hok
    | ok st1 =>
      intro hok
      have h1 : st1.2.2.1 = st.2.2.1 :=
        parse_region_attr_extent_flag st name value (fun hc => hmem.1 hc.symm) st1 ha
      have h2 := parse_region_attrs_extent_flag rest st1 st' hmem.2 hok
      rw [h2, h1]

/-- C10: a region element must carry both `tts:origin` and `tts:extent`: if
either attribute is absent the per-region parse can never succeed, and (when
the attribute loop itself completes) it fails precisely with the
missing-attribute `ParseError` — although the `Region` model type itself
provides defaults for both fields (last conjunct). -/
theorem c10_region_requires_origin_and_extent (attrs : List (String × String)) :
    (ORIGIN_ATTR ∉ attrs.map Prod.fst → ∀ res, parse_region_body attrs ≠ .ok res) ∧
    (ORIGIN_ATTR ∉ attrs.map Prod.fst →
      ∀ st, parse_region_attrs attrs ({}, false, false, "") = .ok st →
        parse_region_body attrs = .error (.parseError "Missing `origin` attribute")) ∧
    (EXTENT_ATTR ∉ attrs.map Prod.fst → ∀ res, parse_region_body attrs ≠ .ok res) ∧
    (EXTENT_ATTR ∉ attrs.map Prod.fst →
      ∀ st, parse_region_attrs attrs ({}, false, false, "") = .ok st → st.2.1 = true →
        parse_region_body attrs = .error (.parseError "Missing `extent` attribute")) ∧
    (({} : Region).origin = ({} : Origin) ∧ ({} : Region).extent = ({} : Extent)) := by
  refine ⟨?_, ?_, ?_, ?_, rfl, rfl⟩
  · intro hmem res hok
    revert hok
    unfold parse_region_body
    cases ha : parse_region_attrs attrs ({}, false, false, "") with
    | error e => intro hok; cases hok
    | ok st =>
      obtain ⟨region, op, ep, style⟩ := st
      have : op = false := parse_region_attrs_origin_flag attrs _ _ hmem ha
      subst this
      intro hok
      cases hok
  · intro hmem st ha
    unfold parse_region_body
    rw [ha]
    obtain ⟨region, op, ep, style⟩ := st
    have : op = false := parse_region_attrs_origin_flag attrs _ _ hmem ha
    subst this
    rfl
  · intro hmem res hok
    revert hok
    unfold parse_region_body
    cases ha : parse_region_attrs attrs ({}, false, false, "") with
    | error e => intro hok; cases hok
    | ok st =>
      obtain ⟨region, op, ep, style⟩ := st
      have : ep = false := parse_region_attrs_extent_flag attrs _ _ hmem ha
      subst this
      cases op <;> (intro hok; cases hok)
  · intro hmem st ha hop
    unfold parse_region_body
    rw [ha]
    obtain ⟨region, op, ep, style⟩ := st
    have : ep = false := parse_region_attrs_extent_flag attrs _ _ hmem ha
    subst this
    simp only at hop
    subst hop
    rfl

/-- Witness for C10: a region element declaring only `tts:origin` fails with
the missing-`extent` error. -/
theorem c10_region_requires_origin_and_extent_witness :
    EXTENT_ATTR ∉ ([(ORIGIN_ATTR, "10% 10%")].map Prod.fst) ∧
      parse_region_body [(ORIGIN_ATTR, "10% 10%")] =
        .error (.parseError "Missing `extent` attribute") :=
  ⟨by decide,
    (c10_region_requires_origin_and_extent [(ORIGIN_ATTR, "10% 10%")]).2.2.2.1
      (by decide) ({ origin := ⟨1/10, 1/10⟩ }, true, false, "") (by decide) rfl⟩

/-- `dropWhile` is the identity when the predicate holds nowhere. -/
theorem dropWhile_eq_self_of {p : Char → Bool} :
    ∀ l : List Char, (∀ c ∈ l, p c = false) → List.dropWhile p l = l
  | [], _ => rfl
  | a :: l, h => by
    have ha : p a = false := h a (by simp)
    simp [List.dropWhile_cons, ha]

/-- Stripping a string that has no whitespace anywhere is the identity. -/
theorem pyStrip_eq_self {l : List Char} (h : ∀ c ∈ l, isSpaceChar c = false) :
    pyStrip l = l := by
  unfold pyStrip
  rw [dropWhile_eq_self_of l h, dropWhile_eq_self_of, List.reverse_reverse]
  intro c hc
  exact h c (by simpa using hc)

/-- A hexadecimal digit is not whitespace. -/
theorem isHexDigit_not_space {c : Char} (h : isHexDigit c = true) :
    isSpaceChar c = false := by
  simp only [isHexDigit, isAsciiDigit, Bool.or_eq_true, Bool.and_eq_true,
    decide_eq_true_eq] at h
  simp only [isSpaceChar, Bool.or_eq_false_iff, decide_eq_false_iff_not]
  omega

/-- A hexadecimal digit's value is below 16. -/
theorem hexVal_lt_16 {c : Char} (h : isHexDigit c = true) : hexVal c < 16 := by
  simp only [isHexDigit, isAsciiDigit, Bool.or_eq_true, Bool.and_eq_true,
    decide_eq_true_eq] at h
  unfold hexVal isAsciiDigit
  split_ifs with h1 h2 <;>
    simp only [Bool.and_eq_true, decide_eq_true_eq] at * <;>
    omega

/-- Channel values built from two hexadecimal digits lie in `[0, 255]`. -/
theorem hexPairVal_mem {c1 c2 : Char} (h1 : isHexDigit c1 = true)
    (h2 : isHexDigit c2 = true) : 0 ≤ hexPairVal c1 c2 ∧ hexPairVal c1 c2 ≤ 255 := by
  have b1 := hexVal_lt_16 h1
  have b2 := hexVal_lt_16 h2
  unfold hexPairVal
  omega

/-- `is_valid` holds for channels in range. -/
theorem color_is_valid_of {r g b a : Int} (hr : 0 ≤ r ∧ r ≤ 255) (hg : 0 ≤ g ∧ g ≤ 255)
    (hb : 0 ≤ b ∧ b ≤ 255) (ha : 0 ≤ a ∧ a ≤ 255) :
    Color.is_valid ⟨r, g, b, a⟩ = true := by
  simp only [Color.is_valid, Bool.and_eq_true, decide_eq_true_eq]
  exact ⟨⟨⟨⟨⟨⟨⟨hr.1, hr.2⟩, hg.1⟩, hg.2⟩, hb.1⟩, hb.2⟩, ha.1⟩, ha.2⟩

/-- C8: a 6-hex-digit `#RRGGBB` parses with alpha forced to 0 (fully
transparent), an 8-digit `#RRGGBBAA` parses with alpha `int(AA, 16)`, hex
strings of any other digit count are rejected, an out-of-range channel (via a
signed 2-character slice, the one way a 2-character slice can leave 0..255)
is rejected, and the named constants `black` and `white` are fully opaque
(alpha 255): the asymmetry is exactly as the source has it. -/
theorem c8_color_parse_alpha :
    (∀ r1 r2 g1 g2 b1 b2 : Char,
      isHexDigit r1 = true → isHexDigit r2 = true → isHexDigit g1 = true →
      isHexDigit g2 = true → isHexDigit b1 = true → isHexDigit b2 = true →
      Color.parse (String.mk ['#', r1, r2, g1, g2, b1, b2]) =
        .ok ⟨hexPairVal r1 r2, hexPairVal g1 g2, hexPairVal b1 b2, 0⟩) ∧
    (∀ r1 r2 g1 g2 b1 b2 a1 a2 : Char,
      isHexDigit r1 = true → isHexDigit r2 = true → isHexDigit g1 = true →
      isHexDigit g2 = true → isHexDigit b1 = true → isHexDigit b2 = true →
      isHexDigit a1 = true → isHexDigit a2 = true →
      Color.parse (String.mk ['#', r1, r2, g1, g2, b1, b2, a1, a2]) =
        .ok ⟨hexPairVal r1 r2, hexPairVal g1 g2, hexPairVal b1 b2, hexPairVal a1 a2⟩) ∧
    (∀ l : List Char, (∀ c ∈ l, isHexDigit c = true) → l.length ≠ 6 → l.length ≠ 8 →
      Color.parse (String.mk ('#' :: l)) = .error (.valueError (String.mk ('#' :: l)))) ∧
    Color.parse "#-1-1-1" = .error (.valueError "#-1-1-1") ∧
    Color.black.alpha = 255 ∧ Color.white.alpha = 255 := by
  refine ⟨?_, ?_, ?_, by decide, rfl, rfl⟩
  · intro r1 r2 g1 g2 b1 b2 h1 h2 h3 h4 h5 h6
    have hstrip : pyStrip (String.mk ['#', r1, r2, g1, g2, b1, b2]).data =
        ['#', r1, r2, g1, g2, b1, b2] := by
      apply pyStrip_eq_self
      intro c hc
      simp only [List.mem_cons, List.not_mem_nil, or_false] at hc
      rcases hc with rfl | rfl | rfl | rfl | rfl | rfl | rfl
      · decide
      all_goals
        apply isHexDigit_not_space
        assumption
    simp only [Color.parse, hstrip, mkParsedColor,
      show intBase16Pair r1 r2 = some (hexPairVal r1 r2) by simp [intBase16Pair, h1, h2],
      show intBase16Pair g1 g2 = some (hexPairVal g1 g2) by simp [intBase16Pair, h3, h4],
      show intBase16Pair b1 b2 = some (hexPairVal b1 b2) by simp [intBase16Pair, h5, h6]]
    rw [if_pos]
    exact color_is_valid_of (hexPairVal_mem h1 h2) (hexPairVal_mem h3 h4)
      (hexPairVal_mem h5 h6) (by omega)
  · intro r1 r2 g1 g2 b1 b2 a1 a2 h1 h2 h3 h4 h5 h6 h7 h8
    have hstrip : pyStrip (String.mk ['#', r1, r2, g1, g2, b1, b2, a1, a2]).data =
        ['#', r1, r2, g1, g2, b1, b2, a1, a2] := by
      apply pyStrip_eq_self
      intro c hc
      simp only [List.mem_cons, List.not_mem_nil, or_false] at hc
      rcases hc with rfl | rfl | rfl | rfl | rfl | rfl | rfl | rfl | rfl
      · decide
      all_goals
        apply isHexDigit_not_space
        assumption
    simp only [Color.parse, hstrip, mkParsedColor,
      show intBase16Pair r1 r2 = some (hexPairVal r1 r2) by simp [intBase16Pair, h1, h2],
      show intBase16Pair g1 g2 = some (hexPairVal g1 g2) by simp [intBase16Pair, h3, h4],
      show intBase16Pair b1 b2 = some (hexPairVal b1 b2) by simp [intBase16Pair, h5, h6],
      show intBase16Pair a1 a2 = some (hexPairVal a1 a2) by simp [intBase16Pair, h7, h8]]
    rw [if_pos]
    exact color_is_valid_of (hexPairVal_mem h1 h2) (hexPairVal_mem h3 h4)
      (hexPairVal_mem h5 h6) (hexPairVal_mem h7 h8)
  · intro l hl h6 h8
    have hstrip : pyStrip (String.mk ('#' :: l)).data = '#' :: l := by
      apply pyStrip_eq_self
      intro c hc
      simp only [List.mem_cons] at hc
      rcases hc with rfl | hc
      · decide
      · exact isHexDigit_not_space (hl c hc)
    rcases l with - | ⟨c1, - | ⟨c2, - | ⟨c3, - | ⟨c4, - | ⟨c5, - | ⟨c6, - | ⟨c7,
      - | ⟨c8, - | ⟨c9, rest⟩⟩⟩⟩⟩⟩⟩⟩⟩ <;>
      first
        | (exact absurd rfl h6)
        | (exact absurd rfl h8)
        | simp only [Color.parse, hstrip]

/-- Witness for C8: `#abcdef` parses with alpha 0, and a lone hex digit after
`#` is rejected. -/
theorem c8_color_parse_alpha_witness :
    isHexDigit 'a' = true ∧
      Color.parse (String.mk ['#', 'a', 'b', 'c', 'd', 'e', 'f']) =
        .ok ⟨hexPairVal 'a' 'b', hexPairVal 'c' 'd', hexPairVal 'e' 'f', 0⟩ ∧
      Color.parse (String.mk ('#' :: ['a'])) =
        .error (.valueError (String.mk ('#' :: ['a']))) :=
  ⟨by decide,
    c8_color_parse_alpha.1 'a' 'b' 'c' 'd' 'e' 'f'
      (by decide) (by decide) (by decide) (by decide) (by decide) (by decide),
    c8_color_parse_alpha.2.2.1 ['a'] (by decide) (by decide) (by decide)⟩

/-- The unit-computation step never touches the background color, the bidi
mode or the foreground color. -/
theorem compute_preserves_non_unit (s : ResolvedStyle) (mask : Nat)
    (pfs : Option ℚ) (cr : CellResolution) :
    (s.compute mask pfs cr).background_color = s.background_color ∧
      (s.compute mask pfs cr).unicode_bidi = s.unicode_bidi ∧
      (s.compute mask pfs cr).color = s.color :=
  ⟨rfl, rfl, rfl⟩

/-- Merging a declaration that declares neither background color, nor bidi
mode, nor foreground color leaves those three accumulator fields unchanged. -/
theorem merge_preserves_undeclared (s : ResolvedStyle) (p : StyleProperties)
    (hbg : p.background_color = none) (hbidi : p.unicode_bidi = none)
    (hcol : p.color = none) :
    (s.merge_properties p).1.background_color = s.background_color ∧
      (s.merge_properties p).1.unicode_bidi = s.unicode_bidi ∧
      (s.merge_properties p).1.color = s.color := by
  refine ⟨?_, ?_, ?_⟩ <;> simp [ResolvedStyle.merge_properties, hbg, hbidi, hcol]

/-- The inner cascade loop preserves background color, bidi mode and
foreground color when none of the scope's (non-empty) style ids declare
them. -/
theorem mergeScopeIds_preserves (styles : List (String × StyleProperties))
    (cr : CellResolution) :
    ∀ (ids : List String) (st st' : ResolvedStyle × ℚ),
      (∀ id ∈ ids, id ≠ "" → ∀ p, stylesGet styles id = some p →
        p.background_color = none ∧ p.unicode_bidi = none ∧ p.color = none) →
      mergeScopeIds styles cr ids st = .ok st' →
      st'.1.background_color = st.1.background_color ∧
        st'.1.unicode_bidi = st.1.unicode_bidi ∧ st'.1.color = st.1.color
  | [], st, st', _, hok => by
    cases hok
    exact ⟨rfl, rfl, rfl⟩
  | id :: rest, (rs, pfs), st', h, hok => by
    have htail : ∀ i ∈ rest, i ≠ "" → ∀ p, stylesGet styles i = some p →
        p.background_color = none ∧ p.unicode_bidi = none ∧ p.color = none :=
      fun i hi => h i (List.mem_cons_of_mem id hi)
    revert hok
    simp only [mergeScopeIds]
    split_ifs with hid
    · intro hok
      exact mergeScopeIds_preserves styles cr rest (rs, pfs) st' htail hok
    · cases hg : stylesGet styles id with
      | none => intro hok; cases hok
      | some p =>
        intro hok
        have hp := h id (List.mem_cons_self id rest) hid p hg
        have hrec := mergeScopeIds_preserves styles cr rest _ st' htail hok
        have hc := compute_preserves_non_unit (rs.merge_properties p).1
          (rs.merge_properties p).2 (some pfs) cr
        have hm := merge_preserves_undeclared rs p hp.1 hp.2.1 hp.2.2
        refine ⟨?_, ?_, ?_⟩
        · rw [hrec.1, hc.1, hm.1]
        · rw [hrec.2.1, hc.2.1, hm.2.1]
        · rw [hrec.2.2, hc.2.2, hm.2.2]

/-- Processing a concatenated scope stack is processing the first part and
then the second, the second never counting as index 0. -/
theorem resolveScopes_append (styles : List (String × StyleProperties))
    (cr : CellResolution) :
    ∀ (xs ys : List String) (first : Bool) (st : ResolvedStyle × ℚ), xs ≠ [] →
      resolveScopes styles cr (xs ++ ys) first st =
        (resolveScopes styles cr xs first st).bind
          (fun st' => resolveScopes styles cr ys false st')
  | [], _, _, _, h => absurd rfl h
  | [x], ys, first, (rs, pfs), _ => by
    simp only [List.cons_append, List.nil_append, resolveScopes]
    cases hm : mergeScopeIds styles cr (pySplit x)
        ((if first then rs else rs.inherited), pfs) with
    | error e => rfl
    | ok st1 => rfl
  | x :: x' :: xs, ys, first, (rs, pfs), _ => by
    simp only [List.cons_append, resolveScopes]
    cases hm : mergeScopeIds styles cr (pySplit x)
        ((if first then rs else rs.inherited), pfs) with
    | error e => rfl
    | ok st1 =>
      simp only [Except.bind]
      exact resolveScopes_append styles cr (x' :: xs) ys false st1 (by simp)

/-- C3: over a scope stack of at least two scopes whose innermost scope's
referenced styles declare neither background color, nor bidi mode, nor
foreground color, the cascade resolves the inner scope's background color to
transparent and its bidi mode to normal regardless of what the outer scopes
set (non-inheriting reset), while the foreground color resolved by the outer
scopes propagates unchanged (inheriting). -/
theorem c3_non_inheriting_reset (styles : List (String × StyleProperties))
    (cr : CellResolution) (outer : List String) (inner : String)
    (rs rsOuter : ResolvedStyle) (hne : outer ≠ [])
    (hprops : ∀ id ∈ pySplit inner, id ≠ "" → ∀ p, stylesGet styles id = some p →
      p.background_color = none ∧ p.unicode_bidi = none ∧ p.color = none)
    (hres : resolve_style styles cr (outer ++ [inner]) = .ok rs)
    (houter : resolve_style styles cr outer = .ok rsOuter) :
    rs.background_color = Color.transparent ∧ rs.unicode_bidi = UnicodeBidi.normal ∧
      rs.color = rsOuter.color := by
  simp only [resolve_style] at hres houter
  rw [resolveScopes_append styles cr outer [inner] true _ hne] at hres
  cases ho : resolveScopes styles cr outer true
      (ResolvedStyle.compute {} COMPUTE_ALL_MASK none cr,
       (ResolvedStyle.compute {} COMPUTE_ALL_MASK none cr).font_size) with
  | error e =>
    rw [ho] at houter
    cases houter
  | ok stO =>
    rw [ho] at hres houter
    have h1 : stO.1 = rsOuter := by
      cases houter
      rfl
    obtain ⟨rsO, pfO⟩ := stO
    simp only [Except.bind, resolveScopes, Bool.false_eq_true, if_false] at hres
    cases hm : mergeScopeIds styles cr (pySplit inner) (rsO.inherited, pfO) with
    | error e =>
      rw [hm] at hres
      cases hres
    | ok stI =>
      rw [hm] at hres
      simp only [resolveScopes, Except.map] at hres
      have h2 : stI.1 = rs := by
        cases hres
        rfl
      have hpres := mergeScopeIds_preserves styles cr (pySplit inner)
        (rsO.inherited, pfO) stI hprops hm
      rw [← h2, ← h1]
      exact ⟨hpres.1, hpres.2.1, hpres.2.2⟩

/-- Style table for the C3 witness: the outer style sets background color,
foreground color and bidi mode; the inner style only a font size. -/
def c3TableW : List (String × StyleProperties) :=
  [("o", { background_color := some Color.black, color := some Color.black,
           unicode_bidi := some UnicodeBidi.embed }),
   ("i", { font_size := some (1/2) })]

/-- The resolved style of the C3 witness's inner scope. -/
def c3InnerW : ResolvedStyle :=
  { background_color := Color.transparent, color := Color.black,
    font_size := 1/30, unicode_bidi := UnicodeBidi.normal }

/-- The resolved style of the C3 witness's outer scope. -/
def c3OuterW : ResolvedStyle :=
  { background_color := Color.black, color := Color.black,
    font_size := 1/15, unicode_bidi := UnicodeBidi.embed }

/-- Witness for C3: an outer scope sets background color, bidi mode and
foreground color; the inner scope's style declares only a font size. -/
theorem c3_non_inheriting_reset_witness :
    (["o"] : List String) ≠ [] ∧
    resolve_style c3TableW {} (["o"] ++ ["i"]) = .ok c3InnerW ∧
    resolve_style c3TableW {} ["o"] = .ok c3OuterW ∧
    (c3InnerW.background_color = Color.transparent ∧
      c3InnerW.unicode_bidi = UnicodeBidi.normal ∧ c3InnerW.color = c3OuterW.color) := by
  refine ⟨by decide, by decide, by decide, ?_⟩
  refine c3_non_inheriting_reset c3TableW {} ["o"] "i" c3InnerW c3OuterW (by decide)
    ?_ (by decide) (by decide)
  intro id hid hne pp hpp
  rw [show pySplit "i" = ["i"] from by decide] at hid
  have hid' : id = "i" := by simpa using hid
  subst hid'
  rw [show stylesGet c3TableW "i" = some { font_size := some (1/2) } from by decide] at hpp
  injection hpp with hpp'
  subst hpp'
  exact ⟨rfl, rfl, rfl⟩

/-- C1 fails on the code: with one scope referencing `s1 s2` where `s1`
declares font size 1/2 and `s2` declares 2/5, and the previous (seed) scope
basis 1/15 (rows = 15), the resolver yields 1/75 — the PRODUCT of both
fractions times the basis — not the claimed last-declared fraction times the
basis, 2/5 × 1/15 = 2/75.  The unit computation runs after every single style
merge, re-basing on the font size just resolved. -/
theorem c1_last_fraction_counterexample :
    (resolve_style [("s1", { font_size := some (1/2) }), ("s2", { font_size := some (2/5) })]
        { columns := 32, rows := 15 } ["s1 s2"]).map (fun rs => rs.font_size) =
      .ok (1/75) ∧
    (resolve_style [("s1", { font_size := some (1/2) }), ("s2", { font_size := some (2/5) })]
        { columns := 32, rows := 15 } ["s1 s2"]).map (fun rs => rs.font_size) ≠
      .ok ((2/5) * (1/15)) := by
  decide

/-- C1 (amended): when a single scope's reference string lists two style
identifiers declaring (non-zero) font-size fractions `f1` then `f2`, the
resolved font size is the product `f2 * (f1 * basis)` of BOTH fractions with
the previous scope's resolved font size (here the seed basis `1 * 1 / rows`):
the unit-computation step runs after each identifier's merge and the parent
basis is updated to the just-resolved font size, so later declarations
compound onto earlier ones instead of replacing them; only non-unit keys are
plainly overwritten by later declarations. -/
theorem c1_same_scope_font_size_amended (f1 f2 : ℚ) (cr : CellResolution)
    (h1 : f1 ≠ 0) (h2 : f2 ≠ 0) :
    (resolve_style [("s1", { font_size := some f1 }), ("s2", { font_size := some f2 })]
        cr ["s1 s2"]).map (fun rs => rs.font_size) =
      .ok (f2 * (f1 * (1 * 1 / (cr.rows : ℚ)))) := by
  have hsplit : pySplit "s1 s2" = ["s1", "s2"] := by decide
  have hg1 : stylesGet [("s1", ({ font_size := some f1 } : StyleProperties)),
      ("s2", { font_size := some f2 })] "s1" = some { font_size := some f1 } := rfl
  have hg2 : stylesGet [("s1", ({ font_size := some f1 } : StyleProperties)),
      ("s2", { font_size := some f2 })] "s2" = some { font_size := some f2 } := rfl
  have hne1 : ¬(("s1" : String) = "") := by decide
  have hne2 : ¬(("s2" : String) = "") := by decide
  have hbf : ((false = true) = False) := by decide
  have hb1 : (COMPUTE_ALL_MASK &&& COMPUTE_FONT_SIZE_BIT ≠ 0) := by decide
  have hb3 : ((0 ||| 0 ||| COMPUTE_FONT_SIZE_BIT ||| 0) &&& COMPUTE_FONT_SIZE_BIT ≠ 0) := by
    decide
  have hb4 : ¬((0 ||| 0 ||| COMPUTE_FONT_SIZE_BIT ||| 0) &&& COMPUTE_LINE_PADDING_BIT ≠ 0) := by
    decide
  simp only [resolve_style, resolveScopes]
  rw [hsplit]
  simp only [mergeScopeIds, hne1, hne2, if_false, hg1, hg2]
  simp only [ResolvedStyle.merge_properties, ResolvedStyle.compute, h1, h2,
    Option.isSome_none, Option.isSome_some, Option.map_none', hbf, if_false, if_true,
    hb1, hb3, hb4, true_or, false_or, or_false, ite_true, ite_false, Except.map]
  rw [if_pos hb3, if_pos hb3, if_pos hb1]

/-- Witness for C1 (amended) at `f1 = 1/2`, `f2 = 2/5`, rows = 15. -/
theorem c1_same_scope_font_size_amended_witness :
    ((1:ℚ)/2) ≠ 0 ∧ ((2:ℚ)/5) ≠ 0 ∧
      (resolve_style [("s1", { font_size := some (1/2) }), ("s2", { font_size := some (2/5) })]
          { columns := 32, rows := 15 } ["s1 s2"]).map (fun rs => rs.font_size) =
        .ok ((2/5) * ((1/2) * (1 * 1 / ((15 : Int) : ℚ)))) :=
  ⟨by norm_num, by norm_num,
    c1_same_scope_font_size_amended (1/2) (2/5) { columns := 32, rows := 15 }
      (by norm_num) (by norm_num)⟩

/-- C2: with a style table declaring 50% font size on the style referenced by
the div and 50% on the style referenced by the span, the scope stack built by
the body walk for the span (div style pushed at the back, paragraph
contributing nothing, span style pushed at the back) resolves the span's
font size to 0.25 × (1/rows): each scope's percentage is applied to the
enclosing scope's already-resolved absolute size, seeded from one cell row. -/
theorem c2_two_level_cascade (cr : CellResolution) (hrows : 0 < cr.rows) :
    (resolve_style [("sd", { font_size := some (1/2) }), ("ss", { font_size := some (1/2) })] cr
        (spanScopeStack (paraScopeStack (divScopeStack [] "" "sd") "" "") "ss")).map
          (fun rs => rs.font_size)
      = .ok ((1/4) * (1 / (cr.rows : ℚ))) := by
  have hstack : spanScopeStack (paraScopeStack (divScopeStack [] "" "sd") "" "") "ss" =
      ["sd", "ss"] := by decide
  have hd : pySplit "sd" = ["sd"] := by decide
  have hs : pySplit "ss" = ["ss"] := by decide
  have h12 : ((1:ℚ)/2) ≠ 0 := by norm_num
  have hgd : stylesGet [("sd", ({ font_size := some (1/2) } : StyleProperties)),
      ("ss", { font_size := some (1/2) })] "sd" = some { font_size := some (1/2) } := rfl
  have hgs : stylesGet [("sd", ({ font_size := some (1/2) } : StyleProperties)),
      ("ss", { font_size := some (1/2) })] "ss" = some { font_size := some (1/2) } := rfl
  have hned : ¬(("sd" : String) = "") := by decide
  have hnes : ¬(("ss" : String) = "") := by decide
  have hbf : ((false = true) = False) := by decide
  have hb1 : (COMPUTE_ALL_MASK &&& COMPUTE_FONT_SIZE_BIT ≠ 0) := by decide
  have hb3 : ((0 ||| 0 ||| COMPUTE_FONT_SIZE_BIT ||| 0) &&& COMPUTE_FONT_SIZE_BIT ≠ 0) := by
    decide
  have hb4 : ¬((0 ||| 0 ||| COMPUTE_FONT_SIZE_BIT ||| 0) &&& COMPUTE_LINE_PADDING_BIT ≠ 0) := by
    decide
  rw [hstack]
  simp only [resolve_style, resolveScopes, hd, hs]
  simp only [mergeScopeIds, hned, hnes, if_false, hgd, hgs]
  simp only [ResolvedStyle.merge_properties, ResolvedStyle.compute, ResolvedStyle.inherited, h12,
    Option.isSome_none, Option.isSome_some, Option.map_none', hbf, if_false, if_true,
    hb1, hb3, hb4, true_or, false_or, or_false, ite_true, ite_false, Except.map]
  rw [if_pos hb3, if_pos hb3, if_pos hb1]
  simp only [Except.ok.injEq]
  ring

/-- Witness for C2 at the default cell resolution (rows = 15). -/
theorem c2_two_level_cascade_witness :
    (0 : Int) < 15 ∧
      (resolve_style
          [("sd", { font_size := some (1/2) }), ("ss", { font_size := some (1/2) })]
          { columns := 32, rows := 15 }
          (spanScopeStack (paraScopeStack (divScopeStack [] "" "sd") "" "") "ss")).map
            (fun rs => rs.font_size)
        = .ok ((1/4) * (1 / ((15 : Int) : ℚ))) :=
  ⟨by decide, c2_two_level_cascade { columns := 32, rows := 15 } (by decide)⟩

end Ebuttd
